import Mathlib

/-!
Shallow embedding of the loyalty-connector extension service
(`src/loyalty-extension-service/src/controllers/cart.controller.ts` and
`src/loyalty-extension-service/src/controllers/order.controller.ts`).

JavaScript numbers are modelled as rationals (`ℚ`): every arithmetic
operation the handlers perform (comparison, `/100`, `*`, `+`) is exact on
the inputs used below, so `ℚ` coincides with IEEE semantics there.
External I/O (the GraphQL read, the customer-update POST) is pushed to the
boundary: the handlers receive the read result as a plain argument and
report any write they would perform in their return value.  A JavaScript
runtime `TypeError` raised by dereferencing `null`/`undefined` (and caught
and rethrown by the handlers' `catch` blocks) is modelled as an explicit
error value.
-/

namespace Loyalty

/-- `export interface cartValues` from cart.controller.ts: one tier block of
the rate table custom object. -/
structure cartValues where
  minCartValue : ℚ
  maxCartValue : ℚ
  factor : ℚ
  addon : ℚ
deriving DecidableEq, Repr

/-- `calculateBonusPoints` from cart.controller.ts: iterate the tier blocks
(`Object.entries(customObject).forEach`); for each block whose range contains
`cartTotal`, overwrite `earnedPoints` with `(cartTotal/100) * factor + addon`.
No rounding is applied anywhere. -/
def calculateBonusPoints (cartTotal : ℚ) (customObject : List cartValues) : ℚ :=
  customObject.foldl
    (fun earnedPoints block =>
      if block.minCartValue ≤ cartTotal ∧ cartTotal ≤ block.maxCartValue then
        cartTotal / 100 * block.factor + block.addon
      else earnedPoints)
    0

/-- The guard of the `if` inside `calculateBonusPoints`:
`cartTotal >= minCartValue && cartTotal <= maxCartValue`. -/
def tierMatches (cartTotal : ℚ) (block : cartValues) : Prop :=
  block.minCartValue ≤ cartTotal ∧ cartTotal ≤ block.maxCartValue

instance (cartTotal : ℚ) (block : cartValues) : Decidable (tierMatches cartTotal block) :=
  inferInstanceAs (Decidable (_ ∧ _))

/-- The award expression of one tier: `(cartTotal/100) * factor + addon`. -/
def tierAward (cartTotal : ℚ) (block : cartValues) : ℚ :=
  cartTotal / 100 * block.factor + block.addon

end Loyalty

namespace Loyalty

lemma calculateBonusPoints_foldl (cartTotal : ℚ) (l : List cartValues) :
    calculateBonusPoints cartTotal l =
      l.foldl
        (fun earnedPoints block =>
          if tierMatches cartTotal block then tierAward cartTotal block else earnedPoints)
        0 := rfl

lemma foldl_tier_no_match (cartTotal : ℚ) (l : List cartValues) (init : ℚ)
    (h : ∀ b ∈ l, ¬ tierMatches cartTotal b) :
    l.foldl
      (fun earnedPoints block =>
        if tierMatches cartTotal block then tierAward cartTotal block else earnedPoints)
      init = init := by
  induction l generalizing init with
  | nil => rfl
  | cons b bs ih =>
    have hb : ¬ tierMatches cartTotal b := h b (List.mem_cons_self b bs)
    simp only [List.foldl_cons, if_neg hb]
    exact ih init (fun x hx => h x (List.mem_cons_of_mem b hx))

lemma foldl_tier_last_match (cartTotal : ℚ) (l : List cartValues) (u : cartValues)
    (h : (l.filter (fun b => decide (tierMatches cartTotal b))).getLast? = some u) :
    ∀ init : ℚ,
      l.foldl
        (fun earnedPoints block =>
          if tierMatches cartTotal block then tierAward cartTotal block else earnedPoints)
        init = tierAward cartTotal u := by
  induction l using List.reverseRecOn with
  | nil => simp at h
  | append_singleton bs b ih =>
    intro init
    rw [List.foldl_append]
    by_cases hb : tierMatches cartTotal b
    · have hfil : (bs ++ [b]).filter (fun x => decide (tierMatches cartTotal x)) =
          bs.filter (fun x => decide (tierMatches cartTotal x)) ++ [b] := by
        simp [List.filter_append, hb]
      rw [hfil] at h
      have : u = b := by
        have := List.getLast?_concat (l := bs.filter (fun x => decide (tierMatches cartTotal x))) (a := b)
        rw [this] at h
        exact (Option.some_inj.mp h).symm
      simp [this, hb]
    · have hfil : (bs ++ [b]).filter (fun x => decide (tierMatches cartTotal x)) =
          bs.filter (fun x => decide (tierMatches cartTotal x)) := by
        simp [List.filter_append, hb]
      rw [hfil] at h
      simp only [List.foldl_cons, List.foldl_nil, if_neg hb]
      exact ih h init

lemma calculateBonusPoints_of_no_match (cartTotal : ℚ) (l : List cartValues)
    (h : ∀ b ∈ l, ¬ tierMatches cartTotal b) :
    calculateBonusPoints cartTotal l = 0 := by
  rw [calculateBonusPoints_foldl]
  exact foldl_tier_no_match cartTotal l 0 h

lemma calculateBonusPoints_of_last_match (cartTotal : ℚ) (l : List cartValues)
    (u : cartValues)
    (h : (l.filter (fun b => decide (tierMatches cartTotal b))).getLast? = some u) :
    calculateBonusPoints cartTotal l = tierAward cartTotal u := by
  rw [calculateBonusPoints_foldl]
  exact foldl_tier_last_match cartTotal l u h 0

/-- `CustomError` from errors/custom.error: `new CustomError(type, statusCode, message)`. -/
structure CustomError where
  errorType : String
  statusCode : ℕ
  message : String
deriving DecidableEq, Repr

/-- An error escaping a handler: either a JavaScript runtime `TypeError`
(from dereferencing `null`/`undefined` in the GraphQL read result, rethrown
by the `catch` block) or a thrown `CustomError`. -/
inductive Err where
  | typeError : Err
  | custom : CustomError → Err
deriving DecidableEq, Repr

/-- One entry of the cart's `customLineItems` as read by the GraphQL query:
`customLineItems { id slug }`. -/
structure CustomLineItem where
  id : String
  slug : String
deriving DecidableEq, Repr

/-- A cent-amount money value: `{centAmount, currencyCode}`. -/
structure Money where
  centAmount : ℚ
  currencyCode : String
deriving DecidableEq, Repr

/-- The update actions the cart handler emits
(`removeCustomLineItem`, `addCustomLineItem`, `setCustomType`).
`addCustomLineItem` carries the two localized names (EN, DE), the zero money,
the slug, the tax-category key and the quantity, exactly the fields built in
cart.controller.ts; `setCustomType` carries the custom-type key
(`tt-loyalty-extension`) and the `points` field value. -/
inductive UpdateAction where
  | removeCustomLineItem (customLineItemId : String)
  | addCustomLineItem (nameEN nameDE : String) (money : Money) (slug : String)
      (taxCategoryKey : String) (quantity : ℕ)
  | setCustomType (typeKey : String) (points : ℚ)
deriving DecidableEq, Repr

/-- The value a handler returns to the service controller:
`{statusCode, actions}`. -/
structure HandlerResponse where
  statusCode : ℕ
  actions : List UpdateAction
deriving DecidableEq, Repr

/-- One entry of `custom.customFieldsRaw { name value }`. -/
structure CustomFieldRaw where
  name : String
  value : ℚ
deriving DecidableEq, Repr

/-- The cart resource from the webhook request body: the handler reads
`cart.id`, `cart.customerId` and `cart.totalPrice.currencyCode`. -/
structure Cart where
  id : String
  customerId : Option String
  totalPriceCurrencyCode : String
deriving DecidableEq, Repr

/-- One entry of `customObjects (container: "schemas") { results { key value } }`:
the value is the rate-table custom object, a collection of tier blocks iterated
by `Object.entries` in insertion order. -/
structure CustomObjectResult where
  key : String
  value : List cartValues
deriving DecidableEq, Repr

/-- The data of the cart handler's GraphQL read.
`customerCustomFieldsRaw = none` models `customer.custom` being `null`
(dereferencing it throws); `some []` models an empty `customFieldsRaw` array
(indexing `[0]` yields `undefined` and `.value` throws). -/
structure CartGraphQLData where
  cartCustomLineItems : List CustomLineItem
  cartTotalCentAmount : ℚ
  customerCustomFieldsRaw : Option (List CustomFieldRaw)
  customObjectResults : List CustomObjectResult
deriving DecidableEq, Repr

namespace CartPath

/-- `update` from cart.controller.ts, with the GraphQL read result passed in as
data.  If the cart has no customer it returns `{statusCode: 201, actions: []}`.
Otherwise it dereferences `customObjects.results[0].value` and
`customer.custom.customFieldsRaw[0].value` (each throwing a `TypeError` when
missing), computes `earnedPoints = calculateBonusPoints(cartTotal, customObject)`,
emits a `removeCustomLineItem` action first when a line item with slug
`bonus-points-earned` already exists, then always emits the
`addCustomLineItem` action and the `setCustomType {points: earnedPoints}`
action, and returns status 201 with that batch.  There is no guard on a zero
cart total. -/
def update (cart : Cart) (gql : CartGraphQLData) : Except Err HandlerResponse :=
  match cart.customerId with
  | none => .ok ⟨201, []⟩
  | some _ =>
    match gql.customObjectResults with
    | [] => .error .typeError
    | firstResult :: _ =>
      match gql.customerCustomFieldsRaw with
      | none => .error .typeError
      | some [] => .error .typeError
      | some (_ :: _) =>
        let customObject := firstResult.value
        let cartTotal := gql.cartTotalCentAmount
        let earnedPoints := calculateBonusPoints cartTotal customObject
        let existingBonusLineItem :=
          gql.cartCustomLineItems.find? (fun item => item.slug == "bonus-points-earned")
        let removeActions : List UpdateAction :=
          match existingBonusLineItem with
          | some item => [.removeCustomLineItem item.id]
          | none => []
        let addCustomLineItemAction : UpdateAction :=
          .addCustomLineItem
            ("Bonus points earned " ++ toString earnedPoints)
            ("Bonus Punkte erhalten " ++ toString earnedPoints)
            ⟨0, cart.totalPriceCurrencyCode⟩
            "bonus-points-earned"
            "standard-tax"
            1
        let setCustomTypeAction : UpdateAction :=
          .setCustomType "tt-loyalty-extension" earnedPoints
        .ok ⟨201, removeActions ++ [addCustomLineItemAction, setCustomTypeAction]⟩

end CartPath

/-- `cartController` from cart.controller.ts: dispatch on the action string;
`Create` and `Update` both run `update`; anything else throws
`CustomError("InvalidOperation", 400, ...)`. -/
def cartController (action : String) (resource : Cart) (gql : CartGraphQLData) :
    Except Err HandlerResponse :=
  if action = "Create" then CartPath.update resource gql
  else if action = "Update" then CartPath.update resource gql
  else .error (.custom ⟨"InvalidOperation", 400,
    "The action is not recognized. Allowed values are Create or Update."⟩)

/-- The order resource from the webhook request body: the handler reads
`order.customerId` and `order.custom?.fields?.points` (`none` models the
custom object, fields object or points field being absent). -/
structure Order where
  customerId : Option String
  customFieldsPoints : Option ℚ
deriving DecidableEq, Repr

/-- The data of the order handler's GraphQL read of the customer:
`customer { version custom { customFieldsRaw { name value } } }`.
`customFieldsRaw = none` models `custom` (or `customFieldsRaw`) being `null`. -/
structure OrderCustomerRead where
  version : ℕ
  customFieldsRaw : Option (List CustomFieldRaw)
deriving DecidableEq, Repr

/-- A customer update the order handler performs directly against the
`customers` endpoint: `{version, actions}` posted for `customerId`. -/
structure CustomerWrite where
  customerId : String
  version : ℕ
  actions : List UpdateAction
deriving DecidableEq, Repr

/-- What one invocation of the order handler does: the customer writes it
performs and the response it returns. -/
structure OrderOutcome where
  writes : List CustomerWrite
  response : HandlerResponse
deriving DecidableEq, Repr

namespace OrderPath

/-- `update` from order.controller.ts, with the GraphQL read result passed in
as data.  Skips (no write, `{statusCode: 201, actions: []}`) when the order has
no customer, no `points` custom field, or `points` is zero (`!points` is true
for `0`) or negative (`points <= 0`).  Otherwise: when
`custom?.customFieldsRaw?.length > 0` it looks for the field named `points`;
if that field is missing it skips; if present, `oldPoints = value || 0`.  When
the customer has no custom fields at all, `oldPoints` keeps its initial value
`0` and the handler proceeds.  It then posts `setCustomType` with
`points + oldPoints` against the customer using the version it just read, and
returns `{statusCode: 201, actions: []}`. -/
def update (order : Order) (gql : OrderCustomerRead) : OrderOutcome :=
  match order.customerId with
  | none => ⟨[], ⟨201, []⟩⟩
  | some customerId =>
    match order.customFieldsPoints with
    | none => ⟨[], ⟨201, []⟩⟩
    | some points =>
      if points = 0 then ⟨[], ⟨201, []⟩⟩
      else if points ≤ 0 then ⟨[], ⟨201, []⟩⟩
      else
        match gql.customFieldsRaw with
        | some (f :: fs) =>
          match (f :: fs).find? (fun field => field.name == "points") with
          | none => ⟨[], ⟨201, []⟩⟩
          | some pointsField =>
            let oldPoints := if pointsField.value = 0 then 0 else pointsField.value
            let totalPoints := points + oldPoints
            ⟨[⟨customerId, gql.version, [.setCustomType "tt-loyalty-extension" totalPoints]⟩],
              ⟨201, []⟩⟩
        | _ =>
          ⟨[⟨customerId, gql.version, [.setCustomType "tt-loyalty-extension" (points + 0)]⟩],
            ⟨201, []⟩⟩

end OrderPath

/-- `orderController` from order.controller.ts: dispatch on the action string;
`Create` and `Update` both run `update`; anything else throws
`CustomError("InvalidOperation", 400, ...)`. -/
def orderController (action : String) (resource : Order) (gql : OrderCustomerRead) :
    Except Err OrderOutcome :=
  if action = "Create" then .ok (OrderPath.update resource gql)
  else if action = "Update" then .ok (OrderPath.update resource gql)
  else .error (.custom ⟨"InvalidOperation", 400,
    "The action is not recognized. Allowed values are Create or Update."⟩)

/-- Modelled from the platform's documented update-action semantics (the
commerce platform applying an action batch to a cart is an external
collaborator, not part of src/): `removeCustomLineItem` deletes the line item
with the given id, `addCustomLineItem` appends a new line item carrying the
action's slug under a platform-generated fresh id, `setCustomType` does not
touch the line items. -/
def applyUpdateAction (freshId : String) (items : List CustomLineItem) :
    UpdateAction → List CustomLineItem
  | .removeCustomLineItem i => items.filter (fun item => item.id != i)
  | .addCustomLineItem _ _ _ slug _ _ => items ++ [⟨freshId, slug⟩]
  | .setCustomType _ _ => items

/-- Apply a whole action batch in array order (freshly generated ids taken
from `freshId`; the batches below contain at most one add action). -/
def applyUpdateActions (freshId : String) (items : List CustomLineItem)
    (actions : List UpdateAction) : List CustomLineItem :=
  actions.foldl (fun acc a => applyUpdateAction freshId acc a) items

/-- The number of custom line items on the cart carrying the bonus-points
marker slug `bonus-points-earned`. -/
def bonusSlugCount (items : List CustomLineItem) : ℕ :=
  (items.filter (fun item => item.slug == "bonus-points-earned")).length

lemma update_ok_shape (cart : Cart) (gql : CartGraphQLData) (cid : String)
    (hcid : cart.customerId = some cid)
    (co : CustomObjectResult) (cos : List CustomObjectResult)
    (hco : gql.customObjectResults = co :: cos)
    (f : CustomFieldRaw) (fs : List CustomFieldRaw)
    (hcf : gql.customerCustomFieldsRaw = some (f :: fs)) :
    CartPath.update cart gql = .ok ⟨201,
      (match gql.cartCustomLineItems.find? (fun item => item.slug == "bonus-points-earned") with
        | some item => [UpdateAction.removeCustomLineItem item.id]
        | none => []) ++
      [.addCustomLineItem
          ("Bonus points earned " ++
            toString (calculateBonusPoints gql.cartTotalCentAmount co.value))
          ("Bonus Punkte erhalten " ++
            toString (calculateBonusPoints gql.cartTotalCentAmount co.value))
          ⟨0, cart.totalPriceCurrencyCode⟩ "bonus-points-earned" "standard-tax" 1,
        .setCustomType "tt-loyalty-extension"
          (calculateBonusPoints gql.cartTotalCentAmount co.value)]⟩ := by
  simp only [CartPath.update, hcid, hco, hcf]

lemma update_error_of_no_results (cart : Cart) (gql : CartGraphQLData) (cid : String)
    (hcid : cart.customerId = some cid) (hco : gql.customObjectResults = []) :
    CartPath.update cart gql = .error .typeError := by
  simp only [CartPath.update, hcid, hco]

lemma update_error_of_no_customFields (cart : Cart) (gql : CartGraphQLData) (cid : String)
    (hcid : cart.customerId = some cid)
    (co : CustomObjectResult) (cos : List CustomObjectResult)
    (hco : gql.customObjectResults = co :: cos)
    (hcf : gql.customerCustomFieldsRaw = none ∨ gql.customerCustomFieldsRaw = some []) :
    CartPath.update cart gql = .error .typeError := by
  rcases hcf with hcf | hcf <;> simp only [CartPath.update, hcid, hco, hcf]

lemma update_no_customer (cart : Cart) (gql : CartGraphQLData)
    (hcid : cart.customerId = none) :
    CartPath.update cart gql = .ok ⟨201, []⟩ := by
  simp only [CartPath.update, hcid]

lemma applyUpdateActions_add_set (freshId : String) (items : List CustomLineItem)
    (nEN nDE : String) (m : Money) (tk : String) (q : ℕ) (ck : String) (p : ℚ) :
    applyUpdateActions freshId items
        [.addCustomLineItem nEN nDE m "bonus-points-earned" tk q, .setCustomType ck p] =
      items ++ [⟨freshId, "bonus-points-earned"⟩] := rfl

lemma applyUpdateActions_remove_add_set (freshId i : String) (items : List CustomLineItem)
    (nEN nDE : String) (m : Money) (tk : String) (q : ℕ) (ck : String) (p : ℚ) :
    applyUpdateActions freshId items
        [.removeCustomLineItem i,
          .addCustomLineItem nEN nDE m "bonus-points-earned" tk q, .setCustomType ck p] =
      (items.filter (fun item => item.id != i)) ++ [⟨freshId, "bonus-points-earned"⟩] := rfl

lemma bonusSlugCount_append_one (items : List CustomLineItem) (freshId : String) :
    bonusSlugCount (items ++ [⟨freshId, "bonus-points-earned"⟩]) = bonusSlugCount items + 1 := by
  simp [bonusSlugCount, List.filter_append]

lemma bonusSlugCount_eq_zero_of_none (items : List CustomLineItem)
    (h : items.find? (fun item => item.slug == "bonus-points-earned") = none) :
    bonusSlugCount items = 0 := by
  rw [List.find?_eq_none] at h
  simp only [bonusSlugCount, List.length_eq_zero]
  exact List.filter_eq_nil_iff.mpr h

lemma bonusFilter_eq_singleton (items : List CustomLineItem) (x : CustomLineItem)
    (hfind : items.find? (fun item => item.slug == "bonus-points-earned") = some x)
    (hle : bonusSlugCount items ≤ 1) :
    items.filter (fun item => item.slug == "bonus-points-earned") = [x] := by
  have hpx : (x.slug == "bonus-points-earned") = true := by
    have := List.find?_some hfind
    simpa using this
  have hx : x ∈ items.filter (fun item => item.slug == "bonus-points-earned") :=
    List.mem_filter.mpr ⟨List.mem_of_find?_eq_some hfind, hpx⟩
  have hlen : (items.filter (fun item => item.slug == "bonus-points-earned")).length = 1 := by
    have h1 : 1 ≤ (items.filter (fun item => item.slug == "bonus-points-earned")).length :=
      List.length_pos.mpr (List.ne_nil_of_mem hx)
    exact le_antisymm hle h1
  obtain ⟨a, ha⟩ := List.length_eq_one.mp hlen
  rw [ha] at hx ⊢
  rw [List.mem_singleton.mp hx]

lemma bonusSlugCount_remove_found (items : List CustomLineItem) (x : CustomLineItem)
    (hfind : items.find? (fun item => item.slug == "bonus-points-earned") = some x)
    (hle : bonusSlugCount items ≤ 1) :
    bonusSlugCount (items.filter (fun item => item.id != x.id)) = 0 := by
  simp only [bonusSlugCount, List.length_eq_zero]
  rw [List.filter_eq_nil_iff]
  intro y hy
  have hy' := List.mem_filter.mp hy
  intro hslug
  have hyB : y ∈ items.filter (fun item => item.slug == "bonus-points-earned") :=
    List.mem_filter.mpr ⟨hy'.1, hslug⟩
  rw [bonusFilter_eq_singleton items x hfind hle] at hyB
  have : y = x := List.mem_singleton.mp hyB
  subst this
  simpa using hy'.2

/-- After one successful pass of the cart handler, a cart that started with at
most one bonus-points line item has exactly one when the cart has a customer,
and is unchanged otherwise; in both cases at most one remains. -/
lemma bonusSlugCount_after_pass (cart : Cart) (gql : CartGraphQLData)
    (resp : HandlerResponse) (freshId : String)
    (hle : bonusSlugCount gql.cartCustomLineItems ≤ 1)
    (hresp : CartPath.update cart gql = .ok resp) :
    bonusSlugCount (applyUpdateActions freshId gql.cartCustomLineItems resp.actions) ≤ 1 := by
  rcases hcid : cart.customerId with _ | cid
  · rw [update_no_customer cart gql hcid] at hresp
    have : resp = ⟨201, []⟩ := by injection hresp with h; exact h.symm
    subst this
    simpa [applyUpdateActions] using hle
  · rcases hco : gql.customObjectResults with _ | ⟨co, cos⟩
    · rw [update_error_of_no_results cart gql cid hcid hco] at hresp
      exact absurd hresp (by simp)
    · rcases hcf : gql.customerCustomFieldsRaw with _ | ⟨_ | ⟨f, fs⟩⟩
      · rw [update_error_of_no_customFields cart gql cid hcid co cos hco (Or.inl hcf)] at hresp
        exact absurd hresp (by simp)
      · rw [update_error_of_no_customFields cart gql cid hcid co cos hco (Or.inr hcf)] at hresp
        exact absurd hresp (by simp)
      · have hshape := update_ok_shape cart gql cid hcid co cos hco f fs hcf
        rw [hshape] at hresp
        rw [← Except.ok.inj hresp]
        rcases hfind : gql.cartCustomLineItems.find?
            (fun item => item.slug == "bonus-points-earned") with _ | x
        · simp only [hfind]
          rw [List.nil_append, applyUpdateActions_add_set, bonusSlugCount_append_one,
            bonusSlugCount_eq_zero_of_none gql.cartCustomLineItems hfind]
        · simp only [hfind, List.cons_append, List.nil_append]
          rw [applyUpdateActions_remove_add_set, bonusSlugCount_append_one,
            bonusSlugCount_remove_found gql.cartCustomLineItems x hfind hle]

/-- C1 (counterexample): the claim says `calculateBonusPoints` returns
`round(t/100 * factor + addon)`.  At cart total 150 with the single matching
tier `{min 0, max 200, factor 1, addon 0}` the code returns `3/2` unrounded,
which differs from the rounded value `2`: no rounding is applied at all. -/
theorem C1_counterexample :
    calculateBonusPoints 150 [⟨0, 200, 1, 0⟩] ≠
      ((round ((150 : ℚ) / 100 * 1 + 0) : ℤ) : ℚ) := by
  norm_num [calculateBonusPoints, round_eq]

/-- C1 (amended): for every cart total `t` and tier table in which exactly one
tier matches, `calculateBonusPoints` returns the exact, unrounded value
`t/100 * factor + addon` of that tier; rounding is never applied, neither to
intermediate values nor to the final result. -/
theorem C1_exact_single_tier (t : ℚ) (l : List cartValues) (u : cartValues)
    (h : l.filter (fun b => decide (tierMatches t b)) = [u]) :
    calculateBonusPoints t l = t / 100 * u.factor + u.addon :=
  calculateBonusPoints_of_last_match t l u (by rw [h]; rfl)

/-- C1 (witness): the single tier `{0, 20000, 5, 10}` matches total 10000 and
the result is exactly `10000/100 * 5 + 10 = 510`. -/
theorem C1_exact_single_tier_witness :
    ([⟨0, 20000, 5, 10⟩] : List cartValues).filter
        (fun b => decide (tierMatches 10000 b)) = [⟨0, 20000, 5, 10⟩] ∧
    calculateBonusPoints 10000 [⟨0, 20000, 5, 10⟩] = (10000 : ℚ) / 100 * 5 + 10 := by
  have hfil : ([⟨0, 20000, 5, 10⟩] : List cartValues).filter
      (fun b => decide (tierMatches 10000 b)) = [⟨0, 20000, 5, 10⟩] := by
    norm_num [tierMatches]
  exact ⟨hfil, C1_exact_single_tier 10000 [⟨0, 20000, 5, 10⟩] ⟨0, 20000, 5, 10⟩ hfil⟩

/-- C7: for every cart total and tier table, whenever the list of matching
tiers ends with tier `u` (in particular whenever two or more tiers match),
`calculateBonusPoints` returns the value computed from that last matching
tier: each later matching tier overwrites the result of every earlier one. -/
theorem C7_last_match_wins (t : ℚ) (l : List cartValues) (u : cartValues)
    (h : (l.filter (fun b => decide (tierMatches t b))).getLast? = some u) :
    calculateBonusPoints t l = tierAward t u :=
  calculateBonusPoints_of_last_match t l u h

/-- C7 (witness): total 100 matches both overlapping tiers; the result is the
second (last) tier's value `100/100 * 2 + 5 = 7`, not the first's `1`. -/
theorem C7_last_match_wins_witness :
    (([⟨0, 200, 1, 0⟩, ⟨0, 300, 2, 5⟩] : List cartValues).filter
        (fun b => decide (tierMatches 100 b))).getLast? = some ⟨0, 300, 2, 5⟩ ∧
    calculateBonusPoints 100 [⟨0, 200, 1, 0⟩, ⟨0, 300, 2, 5⟩] = tierAward 100 ⟨0, 300, 2, 5⟩ := by
  have hlast : (([⟨0, 200, 1, 0⟩, ⟨0, 300, 2, 5⟩] : List cartValues).filter
      (fun b => decide (tierMatches 100 b))).getLast? = some ⟨0, 300, 2, 5⟩ := by
    norm_num [tierMatches]
  exact ⟨hlast,
    C7_last_match_wins 100 [⟨0, 200, 1, 0⟩, ⟨0, 300, 2, 5⟩] ⟨0, 300, 2, 5⟩ hlast⟩

/-- C8: for every cart total and tier table in which no tier's range contains
the total, `calculateBonusPoints` returns 0. -/
theorem C8_no_match_zero (t : ℚ) (l : List cartValues)
    (h : ∀ b ∈ l, ¬ tierMatches t b) :
    calculateBonusPoints t l = 0 :=
  calculateBonusPoints_of_no_match t l h

/-- C8 (witness): total 500 is below the only tier's range `[1000, 2000]`,
so the computed award is 0. -/
theorem C8_no_match_zero_witness :
    (∀ b ∈ ([⟨1000, 2000, 1, 5⟩] : List cartValues), ¬ tierMatches 500 b) ∧
    calculateBonusPoints 500 [⟨1000, 2000, 1, 5⟩] = 0 := by
  have h : ∀ b ∈ ([⟨1000, 2000, 1, 5⟩] : List cartValues), ¬ tierMatches 500 b := by
    norm_num [tierMatches]
  exact ⟨h, C8_no_match_zero 500 [⟨1000, 2000, 1, 5⟩] h⟩

/-- C6 (counterexample): the claim says `earnedPoints` is always an integer.
At cart total 150 with tier `{0, 200, factor 1, addon 0}` the code produces
`150/100 * 1 + 0 = 3/2`, which is not an integer. -/
theorem C6_counterexample :
    ¬ ∃ n : ℤ, calculateBonusPoints 150 [⟨0, 200, 1, 0⟩] = (n : ℚ) := by
  rintro ⟨n, hn⟩
  have h32 : calculateBonusPoints 150 [⟨0, 200, 1, 0⟩] = 3 / 2 := by
    norm_num [calculateBonusPoints]
  rw [h32] at hn
  have h3 : (3 : ℚ) = 2 * (n : ℚ) := by field_simp at hn; linarith
  have h3i : (3 : ℤ) = 2 * n := by exact_mod_cast h3
  omega

/-- C6 (amended): `earnedPoints` is the exact unrounded rational; it is an
integer provided the last matching tier satisfies `t * factor = 100 * m` and
`addon = a` for integers `m`, `a` — in general it can be a non-integer
rational. -/
theorem C6_integer_when_divisible (t : ℚ) (l : List cartValues) (u : cartValues)
    (m a : ℤ)
    (h : (l.filter (fun b => decide (tierMatches t b))).getLast? = some u)
    (hm : t * u.factor = 100 * (m : ℚ)) (ha : u.addon = (a : ℚ)) :
    ∃ n : ℤ, calculateBonusPoints t l = (n : ℚ) := by
  refine ⟨m + a, ?_⟩
  rw [calculateBonusPoints_of_last_match t l u h, tierAward]
  have hfac : t / 100 * u.factor = (m : ℚ) := by
    rw [div_mul_eq_mul_div, hm]
    norm_num
  rw [hfac, ha]
  push_cast
  ring

/-- C6 (witness): at total 10000 with tier `{0, 20000, 5, 10}` we have
`10000 * 5 = 100 * 500` and `addon = 10`, so the award is the integer 510. -/
theorem C6_integer_when_divisible_witness :
    ∃ n : ℤ, calculateBonusPoints 10000 [⟨0, 20000, 5, 10⟩] = (n : ℚ) :=
  C6_integer_when_divisible 10000 [⟨0, 20000, 5, 10⟩] ⟨0, 20000, 5, 10⟩ 500 10
    (by norm_num [tierMatches]) (by norm_num) (by norm_num)

/-- C2 (counterexample): the claim says that when the customer's `points`
custom field is absent because there is no custom-type assignment at all, the
order handler skips the update and performs no `setCustomType` write.  On a
customer read with `customFieldsRaw` missing (`custom` is `null`) and an order
carrying 5 points, the handler in fact treats the prior balance as 0 and posts
a `setCustomType` write of 5 points against the customer. -/
theorem C2_counterexample :
    (OrderPath.update ⟨some "customer-1", some 5⟩ ⟨3, none⟩).writes =
      [⟨"customer-1", 3, [.setCustomType "tt-loyalty-extension" 5]⟩] ∧
    (OrderPath.update ⟨some "customer-1", some 5⟩ ⟨3, none⟩).writes ≠ [] := by
  norm_num [OrderPath.update]

/-- C2 (amended): the order handler skips the update entirely (no write, a
successful response with an empty action list) exactly in the case where the
customer has a non-empty custom-field list that contains no field named
`points`; when the customer has no custom fields at all, it instead treats the
prior balance as 0 and performs the write. -/
theorem C2_skip_other_custom_type (cid : String) (p : ℚ) (hp : 0 < p) (v : ℕ)
    (f : CustomFieldRaw) (fs : List CustomFieldRaw)
    (hnone : ∀ g ∈ f :: fs, g.name ≠ "points") :
    OrderPath.update ⟨some cid, some p⟩ ⟨v, some (f :: fs)⟩ = ⟨[], ⟨201, []⟩⟩ := by
  have hfind : (f :: fs).find? (fun field => field.name == "points") = none := by
    rw [List.find?_eq_none]
    intro g hg
    simpa using hnone g hg
  simp only [OrderPath.update, if_neg (ne_of_gt hp), if_neg (not_le.mpr hp), hfind]

/-- C2 (witness): a customer whose only custom field is `tier` (no `points`
field) with an order carrying 5 points: the handler performs no write and
returns status 201 with no actions. -/
theorem C2_skip_other_custom_type_witness :
    (0 : ℚ) < 5 ∧ (∀ g ∈ ([⟨"tier", 1⟩] : List CustomFieldRaw), g.name ≠ "points") ∧
    OrderPath.update ⟨some "customer-1", some 5⟩ ⟨2, some [⟨"tier", 1⟩]⟩ = ⟨[], ⟨201, []⟩⟩ := by
  have hp : (0 : ℚ) < 5 := by norm_num
  have hnone : ∀ g ∈ ([⟨"tier", 1⟩] : List CustomFieldRaw), g.name ≠ "points" := by
    simp
  exact ⟨hp, hnone, C2_skip_other_custom_type "customer-1" 5 hp 2 ⟨"tier", 1⟩ [] hnone⟩

/-- C4: on the order path, for every earned amount `e > 0` and prior stored
balance `p` (`p = 0` when the field is unset), the points value posted via
`setCustomType` is the reconciled total `e + p` — never the raw earned points
alone; with a prior balance of 0 (explicit or unset field) it is exactly `e`. -/
theorem C4_reconciled_total (cid : String) (e p : ℚ) (he : 0 < e) (v : ℕ) :
    (OrderPath.update ⟨some cid, some e⟩ ⟨v, some [⟨"points", p⟩]⟩).writes =
      [⟨cid, v, [.setCustomType "tt-loyalty-extension" (e + p)]⟩] ∧
    (OrderPath.update ⟨some cid, some e⟩ ⟨v, none⟩).writes =
      [⟨cid, v, [.setCustomType "tt-loyalty-extension" e]⟩] := by
  constructor
  · have hfind : ([⟨"points", p⟩] : List CustomFieldRaw).find?
        (fun field => field.name == "points") = some ⟨"points", p⟩ := by
      simp [List.find?]
    by_cases hp0 : p = 0
    · subst hp0
      simp only [OrderPath.update, if_neg (ne_of_gt he), if_neg (not_le.mpr he), hfind]
      norm_num
    · simp only [OrderPath.update, if_neg (ne_of_gt he), if_neg (not_le.mpr he), hfind,
        if_neg hp0]
  · simp only [OrderPath.update, if_neg (ne_of_gt he), if_neg (not_le.mpr he)]
    norm_num

/-- C4 (witness): earned 5 with prior balance 7 posts `setCustomType` with
12 = 5 + 7; with the field unset the posted value is exactly 5. -/
theorem C4_reconciled_total_witness :
    (0 : ℚ) < 5 ∧
    (OrderPath.update ⟨some "customer-1", some 5⟩ ⟨1, some [⟨"points", 7⟩]⟩).writes =
      [⟨"customer-1", 1, [.setCustomType "tt-loyalty-extension" (5 + 7)]⟩] ∧
    (OrderPath.update ⟨some "customer-1", some 5⟩ ⟨1, none⟩).writes =
      [⟨"customer-1", 1, [.setCustomType "tt-loyalty-extension" 5]⟩] := by
  have he : (0 : ℚ) < 5 := by norm_num
  exact ⟨he, (C4_reconciled_total "customer-1" 5 7 he 1).1,
    (C4_reconciled_total "customer-1" 5 7 he 1).2⟩

/-- C5 (code evaluated at the failing input): the spec requires a zero cart
total to short-circuit to a successful no-op with no actions, but the cart
handler has no zero-total guard: at total 0 with tier
`{0, 10000, factor 5, addon 10}` (the tier matches 0) it computes an award of
`0/100 * 5 + 10 = 10` points and returns an `addCustomLineItem` and a
`setCustomType` action rather than an empty list. -/
theorem C5_zero_total_emits_actions :
    CartPath.update ⟨"cart-1", some "customer-1", "EUR"⟩
        ⟨[], 0, some [⟨"points", 0⟩], [⟨"loyalty", [⟨0, 10000, 5, 10⟩]⟩]⟩ =
      .ok ⟨201,
        [.addCustomLineItem "Bonus points earned 10" "Bonus Punkte erhalten 10"
            ⟨0, "EUR"⟩ "bonus-points-earned" "standard-tax" 1,
          .setCustomType "tt-loyalty-extension" 10]⟩ := by
  have h : calculateBonusPoints 0 [⟨0, 10000, 5, 10⟩] = 10 := by
    norm_num [calculateBonusPoints]
  simp [CartPath.update, h]
  exact ⟨rfl, rfl⟩

/-- C9: for every action string other than `Create` or `Update`, both the cart
controller and the order controller throw the typed
`CustomError("InvalidOperation", 400, ...)`, which propagates to the caller;
neither handler runs and no action list is returned. -/
theorem C9_invalid_operation (action : String)
    (h1 : action ≠ "Create") (h2 : action ≠ "Update")
    (cart : Cart) (gcart : CartGraphQLData) (order : Order) (gorder : OrderCustomerRead) :
    cartController action cart gcart =
      .error (.custom ⟨"InvalidOperation", 400,
        "The action is not recognized. Allowed values are Create or Update."⟩) ∧
    orderController action order gorder =
      .error (.custom ⟨"InvalidOperation", 400,
        "The action is not recognized. Allowed values are Create or Update."⟩) := by
  constructor
  · simp [cartController, h1, h2]
  · simp [orderController, h1, h2]

/-- C9 (witness): the action `Delete` makes both controllers throw the
`InvalidOperation` error with status 400. -/
theorem C9_invalid_operation_witness :
    ("Delete" : String) ≠ "Create" ∧ ("Delete" : String) ≠ "Update" ∧
    cartController "Delete" ⟨"cart-1", none, "EUR"⟩ ⟨[], 0, none, []⟩ =
      .error (.custom ⟨"InvalidOperation", 400,
        "The action is not recognized. Allowed values are Create or Update."⟩) ∧
    orderController "Delete" ⟨none, none⟩ ⟨0, none⟩ =
      .error (.custom ⟨"InvalidOperation", 400,
        "The action is not recognized. Allowed values are Create or Update."⟩) := by
  have h1 : ("Delete" : String) ≠ "Create" := by decide
  have h2 : ("Delete" : String) ≠ "Update" := by decide
  have h := C9_invalid_operation "Delete" h1 h2 ⟨"cart-1", none, "EUR"⟩ ⟨[], 0, none, []⟩
    ⟨none, none⟩ ⟨0, none⟩
  exact ⟨h1, h2, h.1, h.2⟩

/-- C10: every execution of the order-path handler that does not throw returns
`{statusCode: 201, actions: []}` to the caller — no update action is ever
handed back on the order path — and any customer write it performs uses the
customer version read in the same invocation. -/
theorem C10_order_response_empty (order : Order) (gql : OrderCustomerRead) :
    (OrderPath.update order gql).response = ⟨201, []⟩ ∧
    ∀ w ∈ (OrderPath.update order gql).writes, w.version = gql.version := by
  rcases order with ⟨cid, pts⟩
  rcases cid with _ | cid
  · simp [OrderPath.update]
  rcases pts with _ | p
  · simp [OrderPath.update]
  by_cases hp0 : p = 0
  · simp [OrderPath.update, hp0]
  by_cases hple : p ≤ 0
  · simp [OrderPath.update, hp0, hple]
  rcases hraw : gql.customFieldsRaw with _ | ⟨_ | ⟨f, fs⟩⟩
  · simp [OrderPath.update, hp0, hple, hraw]
  · simp [OrderPath.update, hp0, hple, hraw]
  · rcases hfind : (f :: fs).find? (fun field => field.name == "points") with _ | pf
    · simp [OrderPath.update, hp0, hple, hraw, hfind]
    · simp [OrderPath.update, hp0, hple, hraw, hfind]

/-- C10 (witness): a concrete order-path run returns `{201, []}` and its
single customer write carries the version 7 read in the same invocation. -/
theorem C10_order_response_empty_witness :
    (OrderPath.update ⟨some "customer-1", some 5⟩ ⟨7, none⟩).response = ⟨201, []⟩ ∧
    (⟨"customer-1", 7, [.setCustomType "tt-loyalty-extension" (5 + 0)]⟩ : CustomerWrite).version
      = 7 := by
  refine ⟨(C10_order_response_empty ⟨some "customer-1", some 5⟩ ⟨7, none⟩).1, ?_⟩
  refine (C10_order_response_empty ⟨some "customer-1", some 5⟩ ⟨7, none⟩).2 _ ?_
  norm_num [OrderPath.update]

/-- C3 (counterexample): the claim quantifies over every cart state, but the
handler removes only the single line item found by `find?`.  Starting from a
cart that already carries two bonus-points line items (`li-a`, `li-b`), two
successive webhook passes (each applied to the cart state the previous pass
produced) still leave two bonus-points line items, not at most one. -/
theorem C3_counterexample :
    CartPath.update ⟨"cart-1", some "customer-1", "EUR"⟩
        ⟨[⟨"li-a", "bonus-points-earned"⟩, ⟨"li-b", "bonus-points-earned"⟩], 100,
          some [⟨"points", 0⟩], [⟨"loyalty", [⟨0, 200, 1, 0⟩]⟩]⟩ =
      .ok ⟨201,
        [.removeCustomLineItem "li-a",
          .addCustomLineItem "Bonus points earned 1" "Bonus Punkte erhalten 1"
            ⟨0, "EUR"⟩ "bonus-points-earned" "standard-tax" 1,
          .setCustomType "tt-loyalty-extension" 1]⟩ ∧
    applyUpdateActions "fresh-1"
        [⟨"li-a", "bonus-points-earned"⟩, ⟨"li-b", "bonus-points-earned"⟩]
        [.removeCustomLineItem "li-a",
          .addCustomLineItem "Bonus points earned 1" "Bonus Punkte erhalten 1"
            ⟨0, "EUR"⟩ "bonus-points-earned" "standard-tax" 1,
          .setCustomType "tt-loyalty-extension" 1] =
      [⟨"li-b", "bonus-points-earned"⟩, ⟨"fresh-1", "bonus-points-earned"⟩] ∧
    CartPath.update ⟨"cart-1", some "customer-1", "EUR"⟩
        ⟨[⟨"li-b", "bonus-points-earned"⟩, ⟨"fresh-1", "bonus-points-earned"⟩], 100,
          some [⟨"points", 0⟩], [⟨"loyalty", [⟨0, 200, 1, 0⟩]⟩]⟩ =
      .ok ⟨201,
        [.removeCustomLineItem "li-b",
          .addCustomLineItem "Bonus points earned 1" "Bonus Punkte erhalten 1"
            ⟨0, "EUR"⟩ "bonus-points-earned" "standard-tax" 1,
          .setCustomType "tt-loyalty-extension" 1]⟩ ∧
    bonusSlugCount (applyUpdateActions "fresh-2"
        [⟨"li-b", "bonus-points-earned"⟩, ⟨"fresh-1", "bonus-points-earned"⟩]
        [.removeCustomLineItem "li-b",
          .addCustomLineItem "Bonus points earned 1" "Bonus Punkte erhalten 1"
            ⟨0, "EUR"⟩ "bonus-points-earned" "standard-tax" 1,
          .setCustomType "tt-loyalty-extension" 1]) = 2 := by
  have h : calculateBonusPoints 100 [⟨0, 200, 1, 0⟩] = 1 := by
    norm_num [calculateBonusPoints]
  refine ⟨?_, rfl, ?_, rfl⟩
  · simp [CartPath.update, h]
    exact ⟨rfl, rfl⟩
  · simp [CartPath.update, h]
    exact ⟨rfl, rfl⟩

/-- C3 (amended): for every cart state carrying at most one bonus-points line
item, applying the cart-path action synthesis twice in sequence (the second
pass reading the line items the first pass's batch produced) leaves at most
one bonus-points custom line item on the cart; and whenever an existing
bonus-points line item is present, the batch emits the `removeCustomLineItem`
action for it first, before the `addCustomLineItem` action. -/
theorem C3_second_pass_single_item (cart : Cart) (cid : String)
    (hcid : cart.customerId = some cid)
    (gql1 gql2 : CartGraphQLData) (fresh1 fresh2 : String)
    (resp1 resp2 : HandlerResponse)
    (hle : bonusSlugCount gql1.cartCustomLineItems ≤ 1)
    (h1 : CartPath.update cart gql1 = .ok resp1)
    (hseq : gql2.cartCustomLineItems =
      applyUpdateActions fresh1 gql1.cartCustomLineItems resp1.actions)
    (h2 : CartPath.update cart gql2 = .ok resp2) :
    bonusSlugCount (applyUpdateActions fresh2 gql2.cartCustomLineItems resp2.actions) ≤ 1 ∧
    ∀ item, gql2.cartCustomLineItems.find?
        (fun it => it.slug == "bonus-points-earned") = some item →
      ∃ e : ℚ, resp2.actions =
        [UpdateAction.removeCustomLineItem item.id,
          .addCustomLineItem ("Bonus points earned " ++ toString e)
            ("Bonus Punkte erhalten " ++ toString e) ⟨0, cart.totalPriceCurrencyCode⟩
            "bonus-points-earned" "standard-tax" 1,
          .setCustomType "tt-loyalty-extension" e] := by
  constructor
  · have hle1 := bonusSlugCount_after_pass cart gql1 resp1 fresh1 hle h1
    rw [← hseq] at hle1
    exact bonusSlugCount_after_pass cart gql2 resp2 fresh2 hle1 h2
  · intro item hfind
    rcases hco : gql2.customObjectResults with _ | ⟨co, cos⟩
    · rw [update_error_of_no_results cart gql2 cid hcid hco] at h2
      exact absurd h2 (by simp)
    rcases hcf : gql2.customerCustomFieldsRaw with _ | ⟨_ | ⟨f, fs⟩⟩
    · rw [update_error_of_no_customFields cart gql2 cid hcid co cos hco (Or.inl hcf)] at h2
      exact absurd h2 (by simp)
    · rw [update_error_of_no_customFields cart gql2 cid hcid co cos hco (Or.inr hcf)] at h2
      exact absurd h2 (by simp)
    · have hshape := update_ok_shape cart gql2 cid hcid co cos hco f fs hcf
      rw [hshape] at h2
      refine ⟨calculateBonusPoints gql2.cartTotalCentAmount co.value, ?_⟩
      rw [← Except.ok.inj h2]
      simp only [hfind, List.cons_append, List.nil_append]

/-- C3 (witness): a concrete two-pass run starting from a cart with no
bonus-points line item: the first pass adds one, the second pass removes it
first and re-adds one; at most one remains at the end. -/
theorem C3_second_pass_single_item_witness :
    bonusSlugCount (applyUpdateActions "fresh-2"
        [⟨"fresh-1", "bonus-points-earned"⟩]
        [.removeCustomLineItem "fresh-1",
          .addCustomLineItem "Bonus points earned 1" "Bonus Punkte erhalten 1"
            ⟨0, "EUR"⟩ "bonus-points-earned" "standard-tax" 1,
          .setCustomType "tt-loyalty-extension" 1]) ≤ 1 := by
  have h : calculateBonusPoints 100 [⟨0, 200, 1, 0⟩] = 1 := by
    norm_num [calculateBonusPoints]
  have h1 : CartPath.update ⟨"cart-1", some "customer-1", "EUR"⟩
      ⟨[], 100, some [⟨"points", 0⟩], [⟨"loyalty", [⟨0, 200, 1, 0⟩]⟩]⟩ =
      .ok ⟨201,
        [.addCustomLineItem "Bonus points earned 1" "Bonus Punkte erhalten 1"
            ⟨0, "EUR"⟩ "bonus-points-earned" "standard-tax" 1,
          .setCustomType "tt-loyalty-extension" 1]⟩ := by
    simp [CartPath.update, h]
    exact ⟨rfl, rfl⟩
  have h2 : CartPath.update ⟨"cart-1", some "customer-1", "EUR"⟩
      ⟨[⟨"fresh-1", "bonus-points-earned"⟩], 100,
        some [⟨"points", 0⟩], [⟨"loyalty", [⟨0, 200, 1, 0⟩]⟩]⟩ =
      .ok ⟨201,
        [.removeCustomLineItem "fresh-1",
          .addCustomLineItem "Bonus points earned 1" "Bonus Punkte erhalten 1"
            ⟨0, "EUR"⟩ "bonus-points-earned" "standard-tax" 1,
          .setCustomType "tt-loyalty-extension" 1]⟩ := by
    simp [CartPath.update, h]
    exact ⟨rfl, rfl⟩
  exact (C3_second_pass_single_item ⟨"cart-1", some "customer-1", "EUR"⟩ "customer-1" rfl
    ⟨[], 100, some [⟨"points", 0⟩], [⟨"loyalty", [⟨0, 200, 1, 0⟩]⟩]⟩
    ⟨[⟨"fresh-1", "bonus-points-earned"⟩], 100,
      some [⟨"points", 0⟩], [⟨"loyalty", [⟨0, 200, 1, 0⟩]⟩]⟩
    "fresh-1" "fresh-2" _ _ (by simp [bonusSlugCount]) h1 rfl h2).1

end Loyalty
